import Mathlib

/-!
Shallow embedding of the Credit Risk Dashboard data pipeline (app.py):
data preparation (sentinel fix, categorical and median imputation, derived
features), predicate filtering, KPI aggregation and the category break-down.
Missing values (pandas NaN) are modelled as Option; monetary and day-count
columns are rationals; float division that can produce infinities or NaN is
modelled by the FVal type.
-/

/-- Result of a float division in pandas: a finite value, an infinity, or NaN. -/
inductive FVal where
  | val (q : ℚ)
  | posInf
  | negInf
  | nan
deriving DecidableEq, Repr

/-- Whether a float-division result is a finite number. -/
def FVal.isFinite : FVal → Bool
  | .val _ => true
  | _ => false

/-- Pandas column division x / y on possibly-missing values: NaN propagates,
division of a nonzero value by zero gives a signed infinity, 0/0 gives NaN. -/
def fdiv (a b : Option ℚ) : FVal :=
  match a, b with
  | none, _ => .nan
  | _, none => .nan
  | some x, some y =>
      if y = 0 then
        if 0 < x then .posInf else if x < 0 then .negInf else .nan
      else .val (x / y)

/-- One raw applicant record (one CSV row). None models a missing value. -/
structure RawRow where
  sk_id_curr : ℤ
  target : Option ℚ
  days_birth : Option ℚ
  days_employed : Option ℚ
  amt_income_total : Option ℚ
  amt_credit : Option ℚ
  amt_annuity : Option ℚ
  ext_source_1 : Option ℚ
  ext_source_2 : Option ℚ
  ext_source_3 : Option ℚ
  code_gender : Option String
  name_income_type : Option String
  name_contract_type : Option String
  name_education_type : Option String
  name_family_status : Option String
  name_housing_type : Option String
deriving DecidableEq, Repr

/-- One prepared applicant record: imputed base columns plus the seven
derived columns added by load_data. Categorical columns are plain strings
because fillna with the literal Unknown is total. -/
structure PreparedRow where
  sk_id_curr : ℤ
  target : Option ℚ
  days_birth : Option ℚ
  days_employed : Option ℚ
  amt_income_total : Option ℚ
  amt_credit : Option ℚ
  amt_annuity : Option ℚ
  ext_source_1 : Option ℚ
  ext_source_2 : Option ℚ
  ext_source_3 : Option ℚ
  code_gender : String
  name_income_type : String
  name_contract_type : String
  name_education_type : String
  name_family_status : String
  name_housing_type : String
  age_years : Option ℚ
  years_employed : Option ℚ
  credit_income_ratio : FVal
  annuity_income_ratio : FVal
  annuity_credit_ratio : FVal
  ext_source_mean : Option ℚ
  short_employment : ℤ
deriving DecidableEq, Repr

/-- Numpy round half to even of a rational, as an integer. -/
def roundHalfEven (x : ℚ) : ℤ :=
  let f := Rat.floor x
  let r := x - f
  if r < 1 / 2 then f
  else if 1 / 2 < r then f + 1
  else if f % 2 = 0 then f else f + 1

/-- Pandas Series.round to 1 decimal place. -/
def roundTo1 (x : ℚ) : ℚ :=
  (roundHalfEven (x * 10) : ℚ) / 10

/-- Pandas Series.median: skip missing values, sort, take the middle element
for odd length and the mean of the two middle elements for even length;
the median of an empty (all-missing) series is NaN. -/
def medianQ (l : List ℚ) : Option ℚ :=
  let s := List.insertionSort (· ≤ ·) l
  let n := s.length
  if n = 0 then none
  else if n % 2 = 1 then some (s.getD (n / 2) 0)
  else some ((s.getD (n / 2 - 1) 0 + s.getD (n / 2) 0) / 2)

/-- Pandas mean with skipna: mean of the present values, NaN when none. -/
def pmean (l : List (Option ℚ)) : Option ℚ :=
  let p := l.filterMap id
  if p.isEmpty then none else some (p.sum / p.length)

/-- Series.fillna m: keep a present value, replace a missing one by m
(which may itself be missing, in which case the value stays missing). -/
def fillNum (m : Option ℚ) (v : Option ℚ) : Option ℚ :=
  match v with
  | some x => some x
  | none => m

/-- Line 32 of app.py: replace the 365243 sentinel in DAYS_EMPLOYED by NaN. -/
def sentinelFix (r : RawRow) : RawRow :=
  { r with days_employed := if r.days_employed = some 365243 then none else r.days_employed }

/-- The per-column medians used by the numeric fillna loop (lines 39 to 41),
computed over the whole post-sentinel dataset; SK_ID_CURR and TARGET are
excluded by the loop. -/
structure Medians where
  days_birth : Option ℚ
  days_employed : Option ℚ
  amt_income_total : Option ℚ
  amt_credit : Option ℚ
  amt_annuity : Option ℚ
  ext_source_1 : Option ℚ
  ext_source_2 : Option ℚ
  ext_source_3 : Option ℚ
deriving DecidableEq, Repr

/-- Median of one numeric column over a list of raw rows. -/
def colMedian (get : RawRow → Option ℚ) (rows : List RawRow) : Option ℚ :=
  medianQ ((rows.map get).filterMap id)

/-- All eight column medians of the post-sentinel dataset. -/
def computeMedians (rows : List RawRow) : Medians where
  days_birth := colMedian (·.days_birth) rows
  days_employed := colMedian (·.days_employed) rows
  amt_income_total := colMedian (·.amt_income_total) rows
  amt_credit := colMedian (·.amt_credit) rows
  amt_annuity := colMedian (·.amt_annuity) rows
  ext_source_1 := colMedian (·.ext_source_1) rows
  ext_source_2 := colMedian (·.ext_source_2) rows
  ext_source_3 := colMedian (·.ext_source_3) rows

/-- Lines 34 to 52 of app.py applied to one row, given the column medians:
categorical fillna with Unknown, numeric fillna with the column median, then
the seven derived columns in source order. -/
def prepRow (m : Medians) (r : RawRow) : PreparedRow :=
  let db := fillNum m.days_birth r.days_birth
  let de := fillNum m.days_employed r.days_employed
  let inc := fillNum m.amt_income_total r.amt_income_total
  let cr := fillNum m.amt_credit r.amt_credit
  let ann := fillNum m.amt_annuity r.amt_annuity
  let e1 := fillNum m.ext_source_1 r.ext_source_1
  let e2 := fillNum m.ext_source_2 r.ext_source_2
  let e3 := fillNum m.ext_source_3 r.ext_source_3
  let yearsE := de.map (fun v => roundTo1 (-v / 365))
  { sk_id_curr := r.sk_id_curr
    target := r.target
    days_birth := db
    days_employed := de
    amt_income_total := inc
    amt_credit := cr
    amt_annuity := ann
    ext_source_1 := e1
    ext_source_2 := e2
    ext_source_3 := e3
    code_gender := r.code_gender.getD "Unknown"
    name_income_type := r.name_income_type.getD "Unknown"
    name_contract_type := r.name_contract_type.getD "Unknown"
    name_education_type := r.name_education_type.getD "Unknown"
    name_family_status := r.name_family_status.getD "Unknown"
    name_housing_type := r.name_housing_type.getD "Unknown"
    age_years := db.map (fun v => roundTo1 (-v / 365))
    years_employed := yearsE
    credit_income_ratio := fdiv cr inc
    annuity_income_ratio := fdiv ann inc
    annuity_credit_ratio := fdiv ann cr
    ext_source_mean := pmean [e1, e2, e3]
    short_employment :=
      match yearsE with
      | some y => if y < 1 then 1 else 0
      | none => 0 }

/-- The data-preparation pipeline of load_data (lines 32 to 52): sentinel fix
first, then per-row imputation and feature derivation with medians taken over
the whole post-sentinel dataset. -/
def prepare (rows : List RawRow) : List PreparedRow :=
  let fixed := rows.map sentinelFix
  fixed.map (prepRow (computeMedians fixed))

/-- A raw dataframe: the parsed CSV rows together with whether the
DAYS_EMPLOYED column is present at all (deployments differ). -/
structure RawDF where
  hasDaysEmployed : Bool
  rows : List RawRow

/-- load_data after the CSV parse: line 32 indexes the DAYS_EMPLOYED column
unconditionally, so when that column is absent pandas raises a KeyError and
preparation aborts; otherwise the pipeline runs to completion. -/
def load_data (d : RawDF) : Except String (List PreparedRow) :=
  if d.hasDaysEmployed then .ok (prepare d.rows) else .error "KeyError: DAYS_EMPLOYED"

/-- The tri-state TARGET selectbox of the sidebar. -/
inductive TargetFilter where
  | all
  | defaultOnly
  | nonDefaultOnly
deriving DecidableEq, Repr

/-- The sidebar filter state: tri-state target, optional exact-match gender
and income type (none models the All choice), and the inclusive age range
slider. -/
structure Filters where
  target_filter : TargetFilter
  gender_filter : Option String
  income_filter : Option String
  age_lo : ℚ
  age_hi : ℚ
deriving DecidableEq, Repr

/-- Lines 92 to 108 of app.py: sequential boolean-mask filtering. A pandas
comparison with NaN is false, so rows with missing TARGET or AGE_YEARS fail
the corresponding active predicate. -/
def df_filtered (d : List PreparedRow) (f : Filters) : List PreparedRow :=
  let d1 :=
    match f.target_filter with
    | .defaultOnly => d.filter (fun (r : PreparedRow) => decide (r.target = some 1))
    | .nonDefaultOnly => d.filter (fun (r : PreparedRow) => decide (r.target = some 0))
    | .all => d
  let d2 :=
    match f.gender_filter with
    | some g => d1.filter (fun (r : PreparedRow) => decide (r.code_gender = g))
    | none => d1
  let d3 :=
    match f.income_filter with
    | some t => d2.filter (fun (r : PreparedRow) => decide (r.name_income_type = t))
    | none => d2
  d3.filter (fun r =>
    match r.age_years with
    | some a => decide (f.age_lo ≤ a ∧ a ≤ f.age_hi)
    | none => false)

/-- The target predicate of a filter selection on one row; All restricts
nothing. -/
def targetOk (f : Filters) (r : PreparedRow) : Bool :=
  match f.target_filter with
  | .all => true
  | .defaultOnly => decide (r.target = some 1)
  | .nonDefaultOnly => decide (r.target = some 0)

/-- The gender predicate of a filter selection on one row; All (none)
restricts nothing. -/
def genderOk (f : Filters) (r : PreparedRow) : Bool :=
  match f.gender_filter with
  | none => true
  | some g => decide (r.code_gender = g)

/-- The income-type predicate of a filter selection on one row; All (none)
restricts nothing. -/
def incomeOk (f : Filters) (r : PreparedRow) : Bool :=
  match f.income_filter with
  | none => true
  | some t => decide (r.name_income_type = t)

/-- The inclusive age-range predicate on one row; a missing AGE_YEARS fails
both pandas comparisons. -/
def ageOk (f : Filters) (r : PreparedRow) : Bool :=
  match r.age_years with
  | some a => decide (f.age_lo ≤ a ∧ a ≤ f.age_hi)
  | none => false

/-- The conjunction of all active predicates, one row at a time. -/
def matchesAll (f : Filters) (r : PreparedRow) : Bool :=
  targetOk f r && genderOk f r && incomeOk f r && ageOk f r

/-- Line 116: Total Clients KPI. -/
def total_clients (v : List PreparedRow) : ℕ :=
  v.length

/-- Line 117: default rate as a percentage, guarded to 0 on an empty view. -/
def default_rate (v : List PreparedRow) : Option ℚ :=
  if total_clients v > 0 then (pmean (v.map (·.target))).map (· * 100) else some 0

/-- Line 118: average income, guarded to 0 on an empty view. -/
def avg_income (v : List PreparedRow) : Option ℚ :=
  if total_clients v > 0 then pmean (v.map (·.amt_income_total)) else some 0

/-- Line 119: average credit, guarded to 0 on an empty view. -/
def avg_credit (v : List PreparedRow) : Option ℚ :=
  if total_clients v > 0 then pmean (v.map (·.amt_credit)) else some 0

/-- Lines 141 to 146: group the filtered view by a categorical column and
take the mean of TARGET per group. Pandas groupby sorts the group keys, so
the result is the sorted list of distinct category values paired with the
per-group skipna mean of TARGET. -/
def cat_group (v : List PreparedRow) (getCat : PreparedRow → String) :
    List (String × Option ℚ) :=
  let keys := List.insertionSort (· ≤ ·) (v.map getCat).dedup
  keys.map (fun k => (k, pmean ((v.filter (fun r => decide (getCat r = k))).map (·.target))))

/-- Placeholder raw row used as the default of list indexing with getD. -/
def defaultRaw : RawRow where
  sk_id_curr := 0
  target := none
  days_birth := none
  days_employed := none
  amt_income_total := none
  amt_credit := none
  amt_annuity := none
  ext_source_1 := none
  ext_source_2 := none
  ext_source_3 := none
  code_gender := none
  name_income_type := none
  name_contract_type := none
  name_education_type := none
  name_family_status := none
  name_housing_type := none

/-- Placeholder prepared row used as the default of list indexing with getD. -/
def defaultPrepared : PreparedRow where
  sk_id_curr := 0
  target := none
  days_birth := none
  days_employed := none
  amt_income_total := none
  amt_credit := none
  amt_annuity := none
  ext_source_1 := none
  ext_source_2 := none
  ext_source_3 := none
  code_gender := ""
  name_income_type := ""
  name_contract_type := ""
  name_education_type := ""
  name_family_status := ""
  name_housing_type := ""
  age_years := none
  years_employed := none
  credit_income_ratio := .nan
  annuity_income_ratio := .nan
  annuity_credit_ratio := .nan
  ext_source_mean := none
  short_employment := 0

/-- The DAYS_EMPLOYED values that are present and are not the 365243
sentinel: exactly the values the post-sentinel median is taken over. -/
def nonSentinelDaysEmployed (rows : List RawRow) : List ℚ :=
  ((rows.map (·.days_employed)).filterMap id).filter (fun v => decide (v ≠ 365243))

/-- One filter selection tightens another: every predicate left unset by f is
arbitrary in g, every predicate set in f is kept identical in g, and the age
range of g is contained in the age range of f. -/
def Tightens (f g : Filters) : Prop :=
  (f.target_filter = .all ∨ g.target_filter = f.target_filter) ∧
  (f.gender_filter = none ∨ g.gender_filter = f.gender_filter) ∧
  (f.income_filter = none ∨ g.income_filter = f.income_filter) ∧
  f.age_lo ≤ g.age_lo ∧ g.age_hi ≤ f.age_hi

/-- A representative fully-populated applicant record used in concrete
test datasets. -/
def baseRow : RawRow where
  sk_id_curr := 0
  target := some 0
  days_birth := some (-10950)
  days_employed := some (-3650)
  amt_income_total := some 100000
  amt_credit := some 500000
  amt_annuity := some 20000
  ext_source_1 := some (1/2)
  ext_source_2 := some (1/2)
  ext_source_3 := some (1/2)
  code_gender := some "M"
  name_income_type := some "Working"
  name_contract_type := some "Cash loans"
  name_education_type := some "Higher education"
  name_family_status := some "Married"
  name_housing_type := some "House / apartment"

theorem prepare_length (rows : List RawRow) : (prepare rows).length = rows.length := by
  simp [prepare]

theorem prepare_getD (rows : List RawRow) (i : ℕ) (h : i < rows.length) :
    (prepare rows).getD i defaultPrepared =
      prepRow (computeMedians (rows.map sentinelFix))
        (sentinelFix (rows.getD i defaultRaw)) := by
  have h1 : i < (rows.map sentinelFix).length := by simpa using h
  simp [prepare, List.getD, List.getElem?_map, List.getElem?_eq_getElem h]

theorem filter_and_comp (p q : α → Bool) (l : List α) :
    (l.filter p).filter q = l.filter fun a => p a && q a := by
  induction l with
  | nil => rfl
  | cons x xs ih => cases hp : p x <;> cases hq : q x <;> simp [List.filter_cons, hp, hq, ih]

theorem df_filtered_eq_filter (d : List PreparedRow) (f : Filters) :
    df_filtered d f = d.filter (matchesAll f) := by
  obtain ⟨tf, gf, icf, lo, hi⟩ := f
  cases tf <;> cases gf <;> cases icf <;>
    · simp only [df_filtered, filter_and_comp]
      apply List.filter_congr
      intro r _
      simp [matchesAll, targetOk, genderOk, incomeOk, ageOk]

theorem length_filter_le_of_imp (p q : α → Bool) (l : List α)
    (h : ∀ x, p x = true → q x = true) :
    (l.filter p).length ≤ (l.filter q).length := by
  induction l with
  | nil => simp
  | cons x xs ih =>
      cases hp : p x
      · cases hq : q x <;> simp [List.filter_cons, hp, hq] <;> omega
      · simp [List.filter_cons, hp, h x hp]
        omega

theorem targetOk_imp (f g : Filters) (r : PreparedRow)
    (h : f.target_filter = .all ∨ g.target_filter = f.target_filter)
    (hr : targetOk g r = true) : targetOk f r = true := by
  rcases h with h | h
  · simp [targetOk, h]
  · simp only [targetOk] at hr ⊢
    rw [← h]
    exact hr

theorem genderOk_imp (f g : Filters) (r : PreparedRow)
    (h : f.gender_filter = none ∨ g.gender_filter = f.gender_filter)
    (hr : genderOk g r = true) : genderOk f r = true := by
  rcases h with h | h
  · simp [genderOk, h]
  · simp only [genderOk] at hr ⊢
    rw [← h]
    exact hr

theorem incomeOk_imp (f g : Filters) (r : PreparedRow)
    (h : f.income_filter = none ∨ g.income_filter = f.income_filter)
    (hr : incomeOk g r = true) : incomeOk f r = true := by
  rcases h with h | h
  · simp [incomeOk, h]
  · simp only [incomeOk] at hr ⊢
    rw [← h]
    exact hr

theorem ageOk_imp (f g : Filters) (r : PreparedRow)
    (hlo : f.age_lo ≤ g.age_lo) (hhi : g.age_hi ≤ f.age_hi)
    (hr : ageOk g r = true) : ageOk f r = true := by
  simp only [ageOk] at hr ⊢
  cases ha : r.age_years with
  | none => rw [ha] at hr; exact absurd hr (by simp)
  | some a =>
      rw [ha] at hr
      simp only [decide_eq_true_eq] at hr ⊢
      exact ⟨hlo.trans hr.1, hr.2.trans hhi⟩

theorem matchesAll_imp (f g : Filters) (r : PreparedRow) (h : Tightens f g)
    (hr : matchesAll g r = true) : matchesAll f r = true := by
  obtain ⟨ht, hg, hi, hlo, hhi⟩ := h
  simp only [matchesAll, Bool.and_eq_true] at hr ⊢
  exact ⟨⟨⟨targetOk_imp f g r ht hr.1.1.1, genderOk_imp f g r hg hr.1.1.2⟩,
    incomeOk_imp f g r hi hr.1.2⟩, ageOk_imp f g r hlo hhi hr.2⟩

/-- C1: on an empty filtered view all four KPI aggregates are the guarded
defaults: total count 0, default rate 0, average income 0 and average credit
0, with no error and no NaN (the result is a present value). -/
theorem C1_empty_view_aggregates_zero (d : List PreparedRow) (f : Filters)
    (h : df_filtered d f = []) :
    total_clients (df_filtered d f) = 0 ∧
    default_rate (df_filtered d f) = some 0 ∧
    avg_income (df_filtered d f) = some 0 ∧
    avg_credit (df_filtered d f) = some 0 := by
  rw [h]
  refine ⟨rfl, ?_, ?_, ?_⟩ <;> rfl

/-- Witness for C1: a one-row prepared dataset whose single row has target 0,
filtered with the Default-only predicate, yields an empty view and the four
zero aggregates. -/
theorem C1_empty_view_aggregates_zero_witness :
    total_clients (df_filtered (prepare [baseRow]) ⟨.defaultOnly, none, none, 0, 100⟩) = 0 ∧
    default_rate (df_filtered (prepare [baseRow]) ⟨.defaultOnly, none, none, 0, 100⟩) = some 0 ∧
    avg_income (df_filtered (prepare [baseRow]) ⟨.defaultOnly, none, none, 0, 100⟩) = some 0 ∧
    avg_credit (df_filtered (prepare [baseRow]) ⟨.defaultOnly, none, none, 0, 100⟩) = some 0 := by
  apply C1_empty_view_aggregates_zero
  norm_num [df_filtered, prepare, prepRow, sentinelFix, baseRow, List.filter_cons]

/-- C4: the filtered view is exactly the rows satisfying the conjunction of
all active predicates (an unset predicate restricting nothing and the age
range inclusive on both ends), and it is a subsequence of the prepared
dataset, so insertion order is preserved. -/
theorem C4_filtered_view_conjunction (d : List PreparedRow) (f : Filters) :
    df_filtered d f = d.filter (matchesAll f) ∧ (df_filtered d f).Sublist d := by
  refine ⟨df_filtered_eq_filter d f, ?_⟩
  rw [df_filtered_eq_filter d f]
  exact List.filter_sublist d

/-- C8: filtering is monotonic: a selection that activates additional
predicates or tightens the age range never has a larger filtered row count. -/
theorem C8_filter_monotonic (d : List PreparedRow) (f g : Filters)
    (h : Tightens f g) :
    (df_filtered d g).length ≤ (df_filtered d f).length := by
  rw [df_filtered_eq_filter d g, df_filtered_eq_filter d f]
  exact length_filter_le_of_imp _ _ d (fun r => matchesAll_imp f g r h)

/-- Witness for C8: activating the Default-only target predicate and
shrinking the age range on a concrete one-row dataset does not increase the
filtered count. -/
theorem C8_filter_monotonic_witness :
    (df_filtered (prepare [baseRow]) ⟨.defaultOnly, none, none, 10, 90⟩).length ≤
      (df_filtered (prepare [baseRow]) ⟨.all, none, none, 0, 100⟩).length := by
  apply C8_filter_monotonic
  refine ⟨Or.inl rfl, Or.inl rfl, Or.inl rfl, by norm_num, by norm_num⟩

theorem sentinel_column (rows : List RawRow) :
    ((rows.map sentinelFix).map (·.days_employed)).filterMap id =
      nonSentinelDaysEmployed rows := by
  induction rows with
  | nil => rfl
  | cons r rs ih =>
      simp only [nonSentinelDaysEmployed, List.map_cons, List.filterMap_cons] at ih ⊢
      cases hde : r.days_employed with
      | none => simpa [sentinelFix, hde] using ih
      | some v =>
          by_cases hv : v = 365243
          · simpa [sentinelFix, hde, hv, List.filter_cons] using ih
          · simpa [sentinelFix, hde, hv, List.filter_cons] using ih

/-- C2: the sentinel fix runs strictly before median imputation: a row whose
raw DAYS_EMPLOYED is the 365243 sentinel ends up with YEARS_EMPLOYED derived
from the median of the present non-sentinel DAYS_EMPLOYED values; the
sentinel itself never contributes to that median. -/
theorem C2_sentinel_before_median (rows : List RawRow) (i : ℕ) (m : ℚ)
    (h : i < rows.length)
    (hsent : (rows.getD i defaultRaw).days_employed = some 365243)
    (hmed : medianQ (nonSentinelDaysEmployed rows) = some m) :
    ((prepare rows).getD i defaultPrepared).years_employed =
      some (roundTo1 (-m / 365)) := by
  rw [prepare_getD rows i h]
  have hfix : (sentinelFix (rows.getD i defaultRaw)).days_employed = none := by
    show (if (rows.getD i defaultRaw).days_employed = some 365243 then none
      else (rows.getD i defaultRaw).days_employed) = none
    rw [hsent]
    simp
  have hcol : (computeMedians (rows.map sentinelFix)).days_employed = some m := by
    simp only [computeMedians, colMedian]
    rw [sentinel_column rows]
    exact hmed
  simp only [prepRow]
  rw [hfix, hcol]
  simp [fillNum]

/-- The end-to-end scenario of the spec: five raw rows, one carrying the
365243 sentinel in DAYS_EMPLOYED. -/
def rows5 : List RawRow :=
  [{ baseRow with days_employed := some (-1000) },
   { baseRow with days_employed := some (-2000) },
   { baseRow with days_employed := some (-3000) },
   { baseRow with days_employed := some (-4000) },
   { baseRow with days_employed := some 365243 }]

/-- Witness for C2: in the five-row scenario the non-sentinel values have
median -2500, and the sentinel row's YEARS_EMPLOYED is derived from it. -/
theorem C2_sentinel_before_median_witness :
    ((prepare rows5).getD 4 defaultPrepared).years_employed =
      some (roundTo1 (-(-2500 : ℚ) / 365)) := by
  apply C2_sentinel_before_median rows5 4 (-2500 : ℚ)
  · norm_num [rows5]
  · norm_num [rows5, baseRow]
  · norm_num [rows5, baseRow, nonSentinelDaysEmployed, medianQ,
      List.insertionSort, List.orderedInsert, List.filter_cons]

theorem fillNum_ne_none {m : Option ℚ} (hm : m ≠ none) (v : Option ℚ) :
    fillNum m v ≠ none := by
  cases v <;> simp [fillNum, hm]

/-- Counterexample to C3 as stated: in a one-row dataset whose AMT_ANNUITY is
missing, the column median is itself missing, fillna leaves the value
missing, and the prepared dataset still has a null in a numeric non-id
non-target column. -/
theorem C3_counterexample :
    (prepare [{ baseRow with amt_annuity := none }]).map (·.amt_annuity) = [none] := by
  norm_num [prepare, prepRow, sentinelFix, computeMedians, colMedian, medianQ,
    fillNum, baseRow]

/-- C3 amended: preparation preserves the row count, fills every categorical
column (missing becomes the literal Unknown), and fills every numeric column
except the id and target columns with the whole-dataset median, provided each
such column still has a defined (non-missing) median after the sentinel fix;
a column with no present value keeps its nulls, as the counterexample shows. -/
theorem C3_imputation_invariants (rows : List RawRow)
    (h1 : colMedian (·.days_birth) (rows.map sentinelFix) ≠ none)
    (h2 : colMedian (·.days_employed) (rows.map sentinelFix) ≠ none)
    (h3 : colMedian (·.amt_income_total) (rows.map sentinelFix) ≠ none)
    (h4 : colMedian (·.amt_credit) (rows.map sentinelFix) ≠ none)
    (h5 : colMedian (·.amt_annuity) (rows.map sentinelFix) ≠ none)
    (h6 : colMedian (·.ext_source_1) (rows.map sentinelFix) ≠ none)
    (h7 : colMedian (·.ext_source_2) (rows.map sentinelFix) ≠ none)
    (h8 : colMedian (·.ext_source_3) (rows.map sentinelFix) ≠ none)
    (i : ℕ) (h : i < rows.length) :
    (prepare rows).length = rows.length ∧
    ((prepare rows).getD i defaultPrepared).days_birth ≠ none ∧
    ((prepare rows).getD i defaultPrepared).days_employed ≠ none ∧
    ((prepare rows).getD i defaultPrepared).amt_income_total ≠ none ∧
    ((prepare rows).getD i defaultPrepared).amt_credit ≠ none ∧
    ((prepare rows).getD i defaultPrepared).amt_annuity ≠ none ∧
    ((prepare rows).getD i defaultPrepared).ext_source_1 ≠ none ∧
    ((prepare rows).getD i defaultPrepared).ext_source_2 ≠ none ∧
    ((prepare rows).getD i defaultPrepared).ext_source_3 ≠ none ∧
    ((prepare rows).getD i defaultPrepared).code_gender =
      ((rows.getD i defaultRaw).code_gender).getD "Unknown" ∧
    ((prepare rows).getD i defaultPrepared).name_income_type =
      ((rows.getD i defaultRaw).name_income_type).getD "Unknown" ∧
    ((prepare rows).getD i defaultPrepared).name_contract_type =
      ((rows.getD i defaultRaw).name_contract_type).getD "Unknown" ∧
    ((prepare rows).getD i defaultPrepared).name_education_type =
      ((rows.getD i defaultRaw).name_education_type).getD "Unknown" ∧
    ((prepare rows).getD i defaultPrepared).name_family_status =
      ((rows.getD i defaultRaw).name_family_status).getD "Unknown" ∧
    ((prepare rows).getD i defaultPrepared).name_housing_type =
      ((rows.getD i defaultRaw).name_housing_type).getD "Unknown" := by
  rw [prepare_getD rows i h]
  simp only [prepRow, computeMedians]
  refine ⟨prepare_length rows, fillNum_ne_none h1 _, fillNum_ne_none h2 _,
    fillNum_ne_none h3 _, fillNum_ne_none h4 _, fillNum_ne_none h5 _,
    fillNum_ne_none h6 _, fillNum_ne_none h7 _, fillNum_ne_none h8 _,
    ?_, ?_, ?_, ?_, ?_, ?_⟩ <;> simp [sentinelFix]

/-- Witness for C3 amended: the one-row dataset of the fully-populated base
row satisfies every median hypothesis and yields a fully-imputed prepared
row. -/
theorem C3_imputation_invariants_witness :
    (prepare [baseRow]).length = [baseRow].length ∧
    ((prepare [baseRow]).getD 0 defaultPrepared).days_birth ≠ none ∧
    ((prepare [baseRow]).getD 0 defaultPrepared).days_employed ≠ none ∧
    ((prepare [baseRow]).getD 0 defaultPrepared).amt_income_total ≠ none ∧
    ((prepare [baseRow]).getD 0 defaultPrepared).amt_credit ≠ none ∧
    ((prepare [baseRow]).getD 0 defaultPrepared).amt_annuity ≠ none ∧
    ((prepare [baseRow]).getD 0 defaultPrepared).ext_source_1 ≠ none ∧
    ((prepare [baseRow]).getD 0 defaultPrepared).ext_source_2 ≠ none ∧
    ((prepare [baseRow]).getD 0 defaultPrepared).ext_source_3 ≠ none ∧
    ((prepare [baseRow]).getD 0 defaultPrepared).code_gender =
      (([baseRow].getD 0 defaultRaw).code_gender).getD "Unknown" ∧
    ((prepare [baseRow]).getD 0 defaultPrepared).name_income_type =
      (([baseRow].getD 0 defaultRaw).name_income_type).getD "Unknown" ∧
    ((prepare [baseRow]).getD 0 defaultPrepared).name_contract_type =
      (([baseRow].getD 0 defaultRaw).name_contract_type).getD "Unknown" ∧
    ((prepare [baseRow]).getD 0 defaultPrepared).name_education_type =
      (([baseRow].getD 0 defaultRaw).name_education_type).getD "Unknown" ∧
    ((prepare [baseRow]).getD 0 defaultPrepared).name_family_status =
      (([baseRow].getD 0 defaultRaw).name_family_status).getD "Unknown" ∧
    ((prepare [baseRow]).getD 0 defaultPrepared).name_housing_type =
      (([baseRow].getD 0 defaultRaw).name_housing_type).getD "Unknown" := by
  apply C3_imputation_invariants <;>
    norm_num [colMedian, medianQ, sentinelFix, baseRow, List.insertionSort,
      List.orderedInsert] <;>
    exact Option.some_ne_none _

/-- Counterexample to C5 as stated: with DAYS_EMPLOYED absent, line 32 of
app.py indexes the missing column, pandas raises a KeyError, and preparation
aborts instead of skipping the sentinel fix and completing. -/
theorem C5_counterexample :
    load_data ⟨false, [baseRow]⟩ = .error "KeyError: DAYS_EMPLOYED" := rfl

/-- C5 amended: for every raw input in which the DAYS_EMPLOYED column is
absent, data preparation fails with a KeyError at the sentinel-fix step;
nothing is skipped and no prepared dataset is produced. -/
theorem C5_missing_column_errors (d : RawDF) (h : d.hasDaysEmployed = false) :
    load_data d = .error "KeyError: DAYS_EMPLOYED" := by
  simp [load_data, h]

/-- Witness for C5 amended: a concrete dataframe without the DAYS_EMPLOYED
column makes load_data fail. -/
theorem C5_missing_column_errors_witness :
    load_data ⟨false, [baseRow]⟩ = .error "KeyError: DAYS_EMPLOYED" :=
  C5_missing_column_errors ⟨false, [baseRow]⟩ rfl

/-- Counterexample to C6 as stated: for days_birth = -10950 the formula gives
exactly -(-10950) / 365 = 30, and rounding 30 to one decimal is 30.0, not the
30.1 the claim asserts. -/
theorem C6_counterexample :
    (prepare [baseRow]).map (·.age_years) = [some 30] ∧ (30 : ℚ) ≠ 301 / 10 := by
  constructor
  · norm_num [prepare, prepRow, sentinelFix, computeMedians, colMedian, medianQ,
      fillNum, roundTo1, roundHalfEven, Rat.floor, baseRow, List.insertionSort,
      List.orderedInsert]
  · norm_num

/-- C6 amended: the derived formula age_years = round(-days_birth / 365, 1)
is exact, and for a row with days_birth = -10950 the prepared age_years is
round(30, 1) = 30.0 (not 30.1). -/
theorem C6_age_years_exact :
    (prepare [baseRow]).map (·.age_years) = [some (roundTo1 (-(-10950 : ℚ) / 365))] ∧
    roundTo1 (-(-10950 : ℚ) / 365) = 30 := by
  constructor
  · norm_num [prepare, prepRow, sentinelFix, computeMedians, colMedian, medianQ,
      fillNum, roundTo1, roundHalfEven, Rat.floor, baseRow, List.insertionSort,
      List.orderedInsert]
  · norm_num [roundTo1, roundHalfEven, Rat.floor]

/-- Three raw rows whose non-sentinel DAYS_EMPLOYED values 365242 and 365244
average to exactly 365243, the sentinel itself. -/
def rows7 : List RawRow :=
  [{ baseRow with days_employed := some 365242 },
   { baseRow with days_employed := some 365244 },
   { baseRow with days_employed := some 365243 }]

/-- Counterexample to C7 as stated: the sentinel row is nulled and then
median-imputed, but the median of the two surviving values is itself 365243,
so a prepared row carries the literal 365243 in DAYS_EMPLOYED again. -/
theorem C7_counterexample :
    (prepare rows7).map (·.days_employed) = [some 365242, some 365244, some 365243] := by
  norm_num [prepare, prepRow, sentinelFix, computeMedians, colMedian, medianQ,
    fillNum, rows7, baseRow, List.insertionSort, List.orderedInsert]

/-- C7 amended: every raw sentinel occurrence is replaced, so 365243 can
remain in the prepared column only as the imputation median itself: whenever
the median of the present non-sentinel values is not 365243, no prepared row
has DAYS_EMPLOYED equal to 365243. -/
theorem C7_no_sentinel_survives (rows : List RawRow)
    (hmed : medianQ (nonSentinelDaysEmployed rows) ≠ some 365243) :
    ∀ p ∈ prepare rows, p.days_employed ≠ some 365243 := by
  intro p hp
  simp only [prepare, List.mem_map] at hp
  obtain ⟨r1, hr1, rfl⟩ := hp
  obtain ⟨r0, hr0, rfl⟩ := hr1
  simp only [prepRow]
  have hM : (computeMedians (rows.map sentinelFix)).days_employed =
      medianQ (nonSentinelDaysEmployed rows) := by
    simp only [computeMedians, colMedian]
    rw [sentinel_column rows]
  rw [hM]
  rcases hde : (sentinelFix r0).days_employed with _ | v
  · simp [fillNum, hmed]
  · have hv : v ≠ 365243 := by
      intro hv
      subst hv
      simp only [sentinelFix] at hde
      by_cases h0 : r0.days_employed = some 365243
      · rw [if_pos h0] at hde
        exact Option.noConfusion hde
      · rw [if_neg h0] at hde
        exact h0 hde
    simp [fillNum, hv]

/-- Witness for C7 amended: on the one-row base dataset the non-sentinel
median is -3650, so the prepared row does not carry 365243. -/
theorem C7_no_sentinel_survives_witness :
    ((prepare [baseRow]).getD 0 defaultPrepared).days_employed ≠ some 365243 := by
  apply C7_no_sentinel_survives [baseRow]
  · norm_num [nonSentinelDaysEmployed, medianQ, baseRow, List.insertionSort,
      List.orderedInsert, List.filter_cons]
  · rw [prepare_getD [baseRow] 0 (by norm_num)]
    simp [prepare]

theorem fdiv_zero_denominator (a : Option ℚ) : (fdiv a (some 0)).isFinite = false := by
  rcases a with _ | x
  · rfl
  · by_cases h1 : (0 : ℚ) < x <;> by_cases h2 : x < (0 : ℚ) <;>
      simp [fdiv, h1, h2, FVal.isFinite]

/-- C10: the three ratio features have no zero-denominator guard: preparation
still succeeds, and a zero AMT_INCOME_TOTAL makes CREDIT_INCOME_RATIO and
ANNUITY_INCOME_RATIO non-finite (an infinity or NaN) while a zero AMT_CREDIT
makes ANNUITY_CREDIT_RATIO non-finite; no error is raised. -/
theorem C10_ratio_unguarded (rows : List RawRow) (i : ℕ) (h : i < rows.length) :
    load_data ⟨true, rows⟩ = .ok (prepare rows) ∧
    ((rows.getD i defaultRaw).amt_income_total = some 0 →
      ((prepare rows).getD i defaultPrepared).credit_income_ratio.isFinite = false ∧
      ((prepare rows).getD i defaultPrepared).annuity_income_ratio.isFinite = false) ∧
    ((rows.getD i defaultRaw).amt_credit = some 0 →
      ((prepare rows).getD i defaultPrepared).annuity_credit_ratio.isFinite = false) := by
  refine ⟨rfl, ?_, ?_⟩
  · intro hz
    rw [prepare_getD rows i h]
    simp only [prepRow]
    have hfx : (sentinelFix (rows.getD i defaultRaw)).amt_income_total = some 0 := by
      simp only [sentinelFix]
      exact hz
    rw [hfx]
    refine ⟨?_, ?_⟩ <;> simp only [fillNum] <;> exact fdiv_zero_denominator _
  · intro hz
    rw [prepare_getD rows i h]
    simp only [prepRow]
    have hfx : (sentinelFix (rows.getD i defaultRaw)).amt_credit = some 0 := by
      simp only [sentinelFix]
      exact hz
    rw [hfx]
    simp only [fillNum]
    exact fdiv_zero_denominator _

/-- A raw row with zero income and zero credit. -/
def row10 : RawRow :=
  { baseRow with amt_income_total := some 0, amt_credit := some 0 }

/-- Witness for C10: on a concrete row with zero income and zero credit,
preparation succeeds and all three ratios are non-finite. -/
theorem C10_ratio_unguarded_witness :
    load_data ⟨true, [row10]⟩ = .ok (prepare [row10]) ∧
    ((prepare [row10]).getD 0 defaultPrepared).credit_income_ratio.isFinite = false ∧
    ((prepare [row10]).getD 0 defaultPrepared).annuity_income_ratio.isFinite = false ∧
    ((prepare [row10]).getD 0 defaultPrepared).annuity_credit_ratio.isFinite = false := by
  obtain ⟨h1, h2, h3⟩ := C10_ratio_unguarded [row10] 0 (by norm_num)
  exact ⟨h1, (h2 (by norm_num [row10, baseRow])).1, (h2 (by norm_num [row10, baseRow])).2,
    h3 (by norm_num [row10, baseRow])⟩

/-- A prepared row of the break-down scenario: a gender label, a target
value, and an age inside the default range. -/
def prow (g : String) (t : ℚ) : PreparedRow :=
  { defaultPrepared with code_gender := g, target := some t, age_years := some 30 }

/-- The filtered view of the break-down scenario: target values 1,0,1,0 for
gender M and 0,0 for gender F. -/
def view9 : List PreparedRow :=
  [prow "M" 1, prow "M" 0, prow "M" 1, prow "M" 0, prow "F" 0, prow "F" 0]

/-- C9: on a filtered view with target values 1,0,1,0 for category M and 0,0
for category F, the category break-down yields the groups in sorted (hence
deterministic) key order with default rate 0 for F and one half for M. -/
theorem C9_category_breakdown :
    df_filtered view9 ⟨.all, none, none, 0, 100⟩ = view9 ∧
    cat_group (df_filtered view9 ⟨.all, none, none, 0, 100⟩) (·.code_gender) =
      [("F", some 0), ("M", some (1 / 2))] := by
  have hMF : ¬ (("M" : String) ≤ "F") := by simp; decide
  have hne1 : ("M" : String) ≠ "F" := by decide
  have hne2 : ("F" : String) ≠ "M" := by decide
  have hfilter : df_filtered view9 ⟨.all, none, none, 0, 100⟩ = view9 := by
    norm_num [df_filtered, view9, prow, defaultPrepared, List.filter_cons]
  refine ⟨hfilter, ?_⟩
  rw [hfilter]
  norm_num [cat_group, view9, prow, defaultPrepared, pmean, List.insertionSort,
    List.orderedInsert, List.dedup, List.filter_cons, List.filterMap_cons,
    hMF, hne1, hne2]
  exact ⟨fun hx => absurd hx (Option.some_ne_none _),
    fun h1 h2 h3 h4 => absurd h1 (Option.some_ne_none _)⟩
